import Mathlib

/-!
Shallow embedding of the core game logic of `src/pascaltriangle.py`
(the Pascal Triangle Sugar activity, Python 2).

The embedded state is the activity's game-relevant mutable fields:
`_triangle_size`, `_blank_cells`, `_current_cell`, `_current_cell_text`
and `_show_hints`.  Toolkit objects (drawing area, alerts, toolbar) carry
no game state other than these and are not modelled.

Python semantics that matter here and are modelled explicitly:
  * `math.factorial(n)` raises `ValueError` for negative `n`
    (modelled as `Except.error`);
  * `int(text)` raises `ValueError` on an empty or non-numeric string;
  * `list.remove(x)` raises `ValueError` when `x` is not in the list,
    and otherwise removes the first occurrence;
  * `/` on Python 2 ints is floor division (`Int.fdiv`);
  * an exception raised inside a GTK signal callback is printed by the
    main loop and the callback is aborted: mutations already performed
    persist.  `press_digit` below reflects this by keeping the partially
    updated state when `_check_current_cell_text` raises.
-/

/-- A cell index: a `(row, column)` pair of Python ints.  The sentinel
`(-1, -1)` denotes "no cell selected". -/
abbrev Cell := Int × Int

/-- The sentinel for "no selection" (`self._current_cell = (-1, -1)`). -/
def noCell : Cell := (-1, -1)

/-- The game-relevant mutable fields of `PascalTriangleActivity`. -/
structure GameState where
  triangle_size : Nat
  blank_cells : List Cell
  current_cell : Cell
  current_cell_text : String
  show_hints : Bool
deriving DecidableEq, Repr

/-- Python `math.factorial`: raises `ValueError` on a negative argument,
otherwise returns the factorial. -/
def pyFactorial (n : Int) : Except Unit Int :=
  if n < 0 then .error () else .ok (Nat.factorial n.toNat)

/-- Python `int(s)` restricted to the strings arising in this program
(strings of decimal digits): an empty or non-digit string raises
`ValueError`, otherwise the decimal value is returned (so a leading zero
is accepted: `int("02") = 2`). -/
def pyInt (s : String) : Except Unit Int :=
  if s.data ≠ [] ∧ s.data.all Char.isDigit then
    .ok ((s.data.foldl (fun n c => n * 10 + (c.toNat - Char.toNat '0')) 0 : Nat) : Int)
  else .error ()

/-- Python `list.remove(a)`: removes the first occurrence of `a`, raising
`ValueError` when `a` is not present. -/
def pyListRemove (l : List Cell) (a : Cell) : Except Unit (List Cell) :=
  if a ∈ l then .ok (l.erase a) else .error ()

/-- `_calculate_pascal_number(index)`: `math.factorial(row) /
(math.factorial(column) * math.factorial(row - column))`, with Python 2
floor division. -/
def calculate_pascal_number (index : Cell) : Except Unit Int := do
  let row := index.1
  let column := index.2
  let num ← pyFactorial row
  let f1 ← pyFactorial column
  let f2 ← pyFactorial (row - column)
  pure (Int.fdiv num (f1 * f2))

/-- `_calculate_number_of_cells()`: `triangle_size * (triangle_size + 1) / 2`. -/
def calculate_number_of_cells (triangle_size : Nat) : Nat :=
  triangle_size * (triangle_size + 1) / 2

/-- `_update_current_cell(index)`: change the selection and clear the
pending text, but only when the new index differs from the current one. -/
def update_current_cell (s : GameState) (index : Cell) : GameState :=
  if index ≠ s.current_cell then
    { s with current_cell := index, current_cell_text := "" }
  else s

/-- `_check_current_cell_text()`: compute the expected Pascal number of
the current cell, parse the typed text, and on a match remove the cell
from `_blank_cells` and clear the selection.  The victory alert it may
then show is pure UI and touches none of the modelled fields. -/
def check_current_cell_text (s : GameState) : Except Unit GameState := do
  let expected_num ← calculate_pascal_number s.current_cell
  let typed ← pyInt s.current_cell_text
  if typed = expected_num then
    let bc ← pyListRemove s.blank_cells s.current_cell
    pure (update_current_cell { s with blank_cells := bc } noCell)
  else
    pure s

/-- The digit branch of `__drawing_area_key_press_cb`: append the digit
when the pending text is shorter than 2 characters, then run
`_check_current_cell_text`.  If the check raises, the exception escapes
the GTK callback and the appended text persists. -/
def press_digit (s : GameState) (d : Fin 10) : GameState :=
  let s1 :=
    if s.current_cell_text.length < 2 then
      { s with current_cell_text := s.current_cell_text ++ toString d.val }
    else s
  match check_current_cell_text s1 with
  | .ok s2 => s2
  | .error _ => s1

/-- The backspace branch of `__drawing_area_key_press_cb`:
`self._current_cell_text = self._current_cell_text[:-1]`. -/
def press_backspace (s : GameState) : GameState :=
  { s with current_cell_text := String.mk s.current_cell_text.data.dropLast }

/-! ## Blank-cell generation and new games

Randomness is injected as a stream `g : Nat → Nat` of draws; Python's
`random.randint(a, b)` (inclusive bounds) is modelled by mapping the next
stream element into `[a, b]`.  Every possible sequence of in-range draws
is realised by some stream, so quantifying over `g` quantifies over every
behaviour of the random source. -/

/-- `random.randint(a, b)` driven by draw number `k` of the stream `g`:
returns a value in `[a, b]` (for `a ≤ b`). -/
def randint (a b : Nat) (g : Nat → Nat) (k : Nat) : Nat :=
  a + g k % (b + 1 - a)

/-- The sampling loop of `_generate_blank_cell_list`: `n` further
iterations, the next using draws `k` and `k + 1` of the stream. -/
def gen_blank_loop (size : Nat) (g : Nat → Nat) : Nat → Nat → List Cell → List Cell
  | 0, _, acc => acc
  | n + 1, k, acc =>
    let row_index := randint 0 (size - 1) g k
    let column_index := randint 0 row_index g (k + 1)
    gen_blank_loop size g n (k + 2) (acc ++ [((row_index : Int), (column_index : Int))])

/-- `_generate_blank_cell_list()`: draw `num_blanks` uniformly from
`[1, number_of_cells]`, sample that many cells with replacement, then
deduplicate (`list(set(blank_cells))`; the set's iteration order is
unspecified, modelled here by `List.dedup`). -/
def generate_blank_cell_list (size : Nat) (g : Nat → Nat) : List Cell :=
  let num_blanks := randint 1 (calculate_number_of_cells size) g 0
  (gen_blank_loop size g num_blanks 1 []).dedup

/-- `start_game()`: reset the selection and pending text and regenerate
the blank cells; `_show_hints` and `_triangle_size` are untouched (the
alert clearing and redraw are UI only). -/
def start_game (s : GameState) (g : Nat → Nat) : GameState :=
  { s with current_cell := noCell,
           current_cell_text := "",
           blank_cells := generate_blank_cell_list s.triangle_size g }

/-- The state the activity constructor builds before its `start_game()`
call: slider at 5, hints off, no selection. -/
def initial_fields : GameState :=
  { triangle_size := 5, blank_cells := [], current_cell := noCell,
    current_cell_text := "", show_hints := false }

/-! ## Hint highlighting (`_get_cell_background`) -/

/-- The four background colours `_get_cell_background` can return:
green (selected), blue (edge hint), yellow (parent hint), white. -/
inductive Highlight where
  | selectedH
  | edgeH
  | parentH
  | noneH
deriving DecidableEq, Repr

/-- `_get_cell_background(index)`: the `if`/`elif` chain of the source,
in source order. -/
def get_cell_background (s : GameState) (index : Cell) : Highlight :=
  if index = s.current_cell then
    .selectedH
  else if s.show_hints ∧ s.current_cell ≠ noCell ∧
      (s.current_cell.2 = 0 ∨ s.current_cell.2 = s.current_cell.1) ∧
      (index.2 = 0 ∨ index.2 = index.1) then
    .edgeH
  else if s.show_hints ∧ index.1 = s.current_cell.1 - 1 ∧
      (index.2 = s.current_cell.2 - 1 ∨ index.2 = s.current_cell.2) then
    .parentH
  else
    .noneH

/-- The spec's `highlightCategory(selected, candidate, hintsEnabled)`,
written from the spec's words: SELECTED first, then EDGE (hints on,
selected not none, both on an edge), then PARENT (hints on, candidate is
one of the two cells above), first match wins, NONE otherwise. -/
def highlightCategory (selected candidate : Cell) (hintsEnabled : Bool) : Highlight :=
  if candidate = selected then
    .selectedH
  else if hintsEnabled ∧ selected ≠ noCell ∧
      (selected.2 = 0 ∨ selected.2 = selected.1) ∧
      (candidate.2 = 0 ∨ candidate.2 = candidate.1) then
    .edgeH
  else if hintsEnabled ∧ candidate.1 = selected.1 - 1 ∧
      (candidate.2 = selected.2 - 1 ∨ candidate.2 = selected.2) then
    .parentH
  else
    .noneH

/-! ## Persistence (`write_file` / `read_file`)

The pickle layer is abstracted by the exception behaviour of Python 2's
`pickle.load` on the blob, which `read_file` distinguishes because its
`except` clauses catch only `EnvironmentError` and
`pickle.UnpicklingError`: a malformed blob whose unpickling raises
`pickle.UnpicklingError` is caught and logged, while one whose
unpickling raises `EOFError` (empty or truncated input), `KeyError`
(unknown opcode byte) or `ValueError` (insecure string literal) escapes
`read_file` uncaught.  A successfully unpickled tuple is modelled as a
list of typed field values; pickle round-trips Python objects exactly,
so `write_file` produces the tuple it pickles. -/

/-- A field of the pickled save tuple. -/
inductive PyVal where
  | vInt (i : Int)
  | vCells (l : List Cell)
  | vCell (c : Cell)
  | vStr (t : String)
  | vBool (b : Bool)
deriving DecidableEq, Repr

/-- A save blob as `pickle.load` sees it: `record` unpickles to a tuple
of fields; `unpicklable` raises `pickle.UnpicklingError` (which
`read_file` catches); `badPickle` raises one of the other exceptions
Python 2's pickle uses for malformed input — `EOFError`, `KeyError` or
`ValueError` — none of which `read_file` catches. -/
inductive SaveBlob where
  | unpicklable
  | badPickle
  | record (obj : List PyVal)
deriving DecidableEq, Repr

/-- Outcome of `read_file`: `failed s` = a caught `UnpicklingError` or
`EnvironmentError` (a warning is logged and the method returns with the
state `s` untouched); `applied` = the five fields were restored;
`uncaught s` = an exception not matched by the `except` clauses escapes
`read_file`, with the state still `s` because the raise precedes every
field assignment (this is also used to abstract tuples whose fields do
not carry the Python types `write_file` produces — no theorem below
depends on those). -/
inductive ReadResult where
  | failed (s : GameState)
  | applied (s : GameState)
  | uncaught (s : GameState)
deriving DecidableEq, Repr

/-- `self._slider.set_value(v)`: a `GtkScale` clamps to its range
`[2, 10]`; a change then fires `__slider_value_changed_cb`, which starts
a new game at the new size. -/
def slider_set_value (s : GameState) (v : Int) (g : Nat → Nat) : GameState :=
  let clamped := (max 2 (min 10 v)).toNat
  if clamped ≠ s.triangle_size then
    start_game { s with triangle_size := clamped } g
  else s

/-- `read_file(file_path)`: load the pickle — an `UnpicklingError` is
caught and logged with the state untouched, while pickle's other
malformed-input exceptions escape uncaught; reject tuples of fewer than
5 fields via the caught path (the explicit `raise UnpicklingError`);
then restore size (via the slider), hints (via the hint button), blank
cells, selection and pending text, ignoring any extra fields. -/
def read_file (s : GameState) (blob : SaveBlob) (g : Nat → Nat) : ReadResult :=
  match blob with
  | .unpicklable => .failed s
  | .badPickle => .uncaught s
  | .record obj =>
    if obj.length < 5 then .failed s
    else
      match obj.get? 0, obj.get? 4, obj.get? 1, obj.get? 2, obj.get? 3 with
      | some (.vInt triangle_size), some (.vBool show_hints),
        some (.vCells blank_cells), some (.vCell current_cell),
        some (.vStr current_cell_text) =>
          let s1 := slider_set_value s triangle_size g
          let s2 := { s1 with show_hints := show_hints }
          .applied { s2 with blank_cells := blank_cells,
                             current_cell := current_cell,
                             current_cell_text := current_cell_text }
      | _, _, _, _, _ => .uncaught s

/-- `write_file(file_path)`: pickle the 5-tuple
`(triangle_size, blank_cells, current_cell, current_cell_text, show_hints)`. -/
def write_file (s : GameState) : SaveBlob :=
  .record [.vInt (s.triangle_size : Int), .vCells s.blank_cells,
           .vCell s.current_cell, .vStr s.current_cell_text,
           .vBool s.show_hints]

/-! ## The reachable-state machine for the PendingText invariant -/

/-- One user-level transition: a New Game press, a click (selecting a
cell or the sentinel), a digit key, or backspace. -/
inductive Step : GameState → GameState → Prop where
  | start (s : GameState) (g : Nat → Nat) : Step s (start_game s g)
  | select (s : GameState) (c : Cell) : Step s (update_current_cell s c)
  | digit (s : GameState) (d : Fin 10) : Step s (press_digit s d)
  | back (s : GameState) : Step s (press_backspace s)

/-- States reachable from a new game (the constructor's `start_game()`
on the initial fields) by the four transitions. -/
inductive Reachable : GameState → Prop where
  | init (g : Nat → Nat) : Reachable (start_game initial_fields g)
  | step {s s' : GameState} : Reachable s → Step s s' → Reachable s'

/-- The PendingText well-formedness the spec asserts: at most two
characters, all decimal digits. -/
def TextWF (s : GameState) : Prop :=
  s.current_cell_text.data.length ≤ 2 ∧
    ∀ c ∈ s.current_cell_text.data, c.isDigit

instance (s : GameState) : Decidable (TextWF s) := by
  unfold TextWF; infer_instance

/-! ## Helper lemmas -/

deriving instance DecidableEq for Except

/-- For a valid cell, `_calculate_pascal_number` is the binomial coefficient. -/
theorem calculate_pascal_number_eq_choose (row col : Nat) (h : col ≤ row) :
    calculate_pascal_number ((row : Int), (col : Int)) = .ok ((Nat.choose row col : Int)) := by
  have hb : 0 < Nat.factorial col * Nat.factorial (row - col) :=
    Nat.mul_pos (Nat.factorial_pos col) (Nat.factorial_pos (row - col))
  have hdiv : Nat.factorial row / (Nat.factorial col * Nat.factorial (row - col)) =
      Nat.choose row col := by
    rw [← Nat.choose_mul_factorial_mul_factorial h, Nat.mul_assoc]
    exact Nat.mul_div_cancel _ hb
  have hsub : (row : Int) - (col : Int) = ((row - col : Nat) : Int) := (Nat.cast_sub h).symm
  simp only [calculate_pascal_number, pyFactorial, hsub]
  rw [if_neg (by exact not_lt.mpr (Int.natCast_nonneg row)),
      if_neg (by exact not_lt.mpr (Int.natCast_nonneg col)),
      if_neg (by exact not_lt.mpr (Int.natCast_nonneg (row - col)))]
  simp only [Bind.bind, Except.bind, Int.toNat_natCast, pure]
  rw [← Nat.cast_mul, ← Int.ofNat_fdiv, hdiv]
  rfl

/-- `_calculate_pascal_number` succeeds only away from the no-selection
sentinel (`math.factorial(-1)` raises). -/
theorem calculate_pascal_number_ok_ne_noCell (c : Cell) (v : Int)
    (h : calculate_pascal_number c = .ok v) : c ≠ noCell := by
  intro hc
  subst hc
  have h2 : (Except.error () : Except Unit Int) = .ok v := h
  exact Except.noConfusion h2

/-- A run of `_check_current_cell_text` that does not raise either leaves
the state alone or has accepted the answer and cleared the selection and
the pending text. -/
theorem check_ok_cases (s s' : GameState) (h : check_current_cell_text s = .ok s') :
    s' = s ∨ (s'.current_cell = noCell ∧ s'.current_cell_text = "") := by
  cases hp : calculate_pascal_number s.current_cell with
  | error e =>
    rw [check_current_cell_text] at h
    simp only [hp, Bind.bind, Except.bind] at h
    exact Except.noConfusion h
  | ok v =>
    cases hq : pyInt s.current_cell_text with
    | error e =>
      rw [check_current_cell_text] at h
      simp only [hp, hq, Bind.bind, Except.bind] at h
      exact Except.noConfusion h
    | ok typed =>
      rw [check_current_cell_text] at h
      simp only [hp, hq, Bind.bind, Except.bind] at h
      by_cases heq : typed = v
      · rw [if_pos heq] at h
        cases hr : pyListRemove s.blank_cells s.current_cell with
        | error e =>
          simp only [hr, Except.bind] at h
          exact Except.noConfusion h
        | ok bc =>
          simp only [hr, Except.bind, pure, Except.pure, Except.ok.injEq] at h
          have hne : noCell ≠ s.current_cell :=
            Ne.symm (calculate_pascal_number_ok_ne_noCell s.current_cell v hp)
          right
          rw [← h, update_current_cell, if_pos (by exact hne)]
          exact ⟨rfl, rfl⟩
      · rw [if_neg heq] at h
        simp only [pure, Except.pure, Except.ok.injEq] at h
        exact Or.inl h.symm

/-! ## Claim theorems -/

/-- C8: for every valid cell `(row, column)` with `0 ≤ column ≤ row`,
`_calculate_pascal_number` returns exactly the binomial coefficient
`C(row, column)` as an exact integer; in particular the values at
`(4, 2)`, `(0, 0)` and `(9, 4)` are 6, 1 and 126. -/
theorem cellValue_eq_binomial :
    (∀ (row col : Nat), col ≤ row →
        calculate_pascal_number ((row : Int), (col : Int)) =
          .ok ((Nat.choose row col : Int))) ∧
    calculate_pascal_number (4, 2) = .ok 6 ∧
    calculate_pascal_number (0, 0) = .ok 1 ∧
    calculate_pascal_number (9, 4) = .ok 126 :=
  ⟨calculate_pascal_number_eq_choose, by decide, by decide, by decide⟩

/-- Witness for C8: the general statement instantiated at `(4, 2)`. -/
theorem cellValue_eq_binomial_witness :
    calculate_pascal_number (((4 : Nat) : Int), ((2 : Nat) : Int)) =
      .ok ((Nat.choose 4 2 : Int)) :=
  cellValue_eq_binomial.1 4 2 (by decide)

/-- C7: `_get_cell_background` classifies every (selected, candidate,
hints) triple exactly as the spec's `highlightCategory` rule chain —
SELECTED, then EDGE, then PARENT, first match wins, NONE otherwise; with
hints disabled every non-selected candidate is NONE, and the
`selected = (3, 1)` examples evaluate as the spec says. -/
theorem get_cell_background_matches_spec :
    (∀ (s : GameState) (index : Cell),
        get_cell_background s index = highlightCategory s.current_cell index s.show_hints) ∧
    (∀ (sel cand : Cell),
        highlightCategory sel cand false =
          if cand = sel then .selectedH else .noneH) ∧
    highlightCategory (3, 1) (3, 1) true = .selectedH ∧
    highlightCategory (3, 1) (2, 0) true = .parentH ∧
    highlightCategory (3, 1) (2, 1) true = .parentH ∧
    highlightCategory (3, 1) (4, 2) true = .noneH := by
  refine ⟨fun s index => rfl, fun sel cand => ?_, by decide, by decide, by decide, by decide⟩
  by_cases h : cand = sel
  · rw [highlightCategory, if_pos h, if_pos h]
  · rw [highlightCategory, if_neg h, if_neg h]
    simp

/-- C1: when the selected cell is a blank cell and the integer value of
the pending text equals its Pascal number, `_check_current_cell_text`
removes the cell from `_blank_cells` (so it is no longer blank, the list
being duplicate-free by construction), resets the selection to the
sentinel and the pending text to the empty string, and leaves
`_triangle_size` and `_show_hints` untouched. -/
theorem checkAnswer_correct_blank_guess (s : GameState) (v : Int)
    (hmem : s.current_cell ∈ s.blank_cells)
    (hval : calculate_pascal_number s.current_cell = .ok v)
    (hparse : pyInt s.current_cell_text = .ok v) :
    check_current_cell_text s =
      .ok { s with blank_cells := s.blank_cells.erase s.current_cell,
                   current_cell := noCell, current_cell_text := "" } ∧
    (s.blank_cells.Nodup → s.current_cell ∉ s.blank_cells.erase s.current_cell) := by
  have hne : noCell ≠ s.current_cell :=
    Ne.symm (calculate_pascal_number_ok_ne_noCell s.current_cell v hval)
  constructor
  · rw [check_current_cell_text]
    simp only [hval, hparse, Bind.bind, Except.bind, pyListRemove, hmem, if_true,
               update_current_cell, pure, Except.pure]
    rw [if_pos (by simpa using hne)]
  · exact fun hnd => hnd.not_mem_erase

/-- Witness for C1: the spec's own scenario, `selected = (2, 1)` with
value 2 and pending text `"02"`. -/
theorem checkAnswer_correct_blank_guess_witness :
    check_current_cell_text
        { triangle_size := 5, blank_cells := [(2, 1)], current_cell := (2, 1),
          current_cell_text := "02", show_hints := false } =
      .ok { triangle_size := 5,
            blank_cells := List.erase [((2 : Int), (1 : Int))] (2, 1),
            current_cell := noCell, current_cell_text := "", show_hints := false } ∧
    (List.Nodup [((2 : Int), (1 : Int))] →
      ((2 : Int), (1 : Int)) ∉ List.erase [((2 : Int), (1 : Int))] (2, 1)) :=
  checkAnswer_correct_blank_guess
    { triangle_size := 5, blank_cells := [(2, 1)], current_cell := (2, 1),
      current_cell_text := "02", show_hints := false }
    2 (by decide) (by decide) (by decide)

/-- C2 (code bug): with no cell selected (`_current_cell = (-1, -1)`), a
digit key press is not a no-op: the digit is appended to the pending
text and `_check_current_cell_text` then raises `ValueError` from
`math.factorial(-1)`, so the state is changed and an exception escapes
the callback. -/
theorem typeDigit_no_selection_raises :
    press_digit
        { triangle_size := 5, blank_cells := [(1, 0)], current_cell := noCell,
          current_cell_text := "", show_hints := false } 5 =
      { triangle_size := 5, blank_cells := [(1, 0)], current_cell := noCell,
        current_cell_text := "5", show_hints := false } ∧
    check_current_cell_text
        { triangle_size := 5, blank_cells := [(1, 0)], current_cell := noCell,
          current_cell_text := "5", show_hints := false } = .error () ∧
    press_digit
        { triangle_size := 5, blank_cells := [(1, 0)], current_cell := noCell,
          current_cell_text := "", show_hints := false } 5 ≠
      { triangle_size := 5, blank_cells := [(1, 0)], current_cell := noCell,
        current_cell_text := "", show_hints := false } := by
  decide

/-- C3 (code bug): with a revealed cell selected — here `(0, 0)`, value
1, not in `_blank_cells` — a matching pending text makes
`_check_current_cell_text` raise `ValueError` from
`_blank_cells.remove`, rather than being the error-free no-op the claim
states; only a non-matching text leaves the state unchanged without an
error. -/
theorem checkAnswer_revealed_cell_raises :
    check_current_cell_text
        { triangle_size := 5, blank_cells := [(2, 1)], current_cell := (0, 0),
          current_cell_text := "1", show_hints := false } = .error () ∧
    check_current_cell_text
        { triangle_size := 5, blank_cells := [(2, 1)], current_cell := (0, 0),
          current_cell_text := "7", show_hints := false } =
      .ok { triangle_size := 5, blank_cells := [(2, 1)], current_cell := (0, 0),
            current_cell_text := "7", show_hints := false } := by
  decide

/-- Counterexample to C4 as stated: with the blank cell `(2, 1)` selected
and an empty pending text, `_check_current_cell_text` raises `ValueError`
from `int('')` instead of treating the guess as not-yet-correct. -/
theorem checkAnswer_empty_text_not_silent :
    check_current_cell_text
        { triangle_size := 5, blank_cells := [(2, 1)], current_cell := (2, 1),
          current_cell_text := "", show_hints := false } = .error () ∧
    check_current_cell_text
        { triangle_size := 5, blank_cells := [(2, 1)], current_cell := (2, 1),
          current_cell_text := "", show_hints := false } ≠
      .ok { triangle_size := 5, blank_cells := [(2, 1)], current_cell := (2, 1),
            current_cell_text := "", show_hints := false } := by
  decide

/-- C4 as amended: when the pending text is empty or not parseable as a
decimal integer, `_check_current_cell_text` raises (`int` fails) before
any assignment, so no field of the state is mutated — but it is an
exception, not a silent "incorrect". -/
theorem checkAnswer_unparseable_raises (s : GameState)
    (h : pyInt s.current_cell_text = .error ()) :
    check_current_cell_text s = .error () := by
  cases hp : calculate_pascal_number s.current_cell with
  | error e => simp only [check_current_cell_text, hp, Bind.bind, Except.bind]
  | ok v => simp only [check_current_cell_text, hp, h, Bind.bind, Except.bind]

/-- Witness for the amended C4: a selected blank cell with empty pending
text makes the check raise. -/
theorem checkAnswer_unparseable_raises_witness :
    check_current_cell_text
        { triangle_size := 2, blank_cells := [(1, 0)], current_cell := (1, 0),
          current_cell_text := "", show_hints := true } = .error () :=
  checkAnswer_unparseable_raises
    { triangle_size := 2, blank_cells := [(1, 0)], current_cell := (1, 0),
      current_cell_text := "", show_hints := true } (by decide)

/-- Restoring the saved triangle size through the slider keeps it exactly
when it lies in the slider's range `[2, 10]`. -/
theorem slider_set_value_size (prior : GameState) (ts : Nat) (g : Nat → Nat)
    (h2 : 2 ≤ ts) (h10 : ts ≤ 10) :
    (slider_set_value prior (ts : Int) g).triangle_size = ts := by
  have hcl : (max 2 (min 10 (ts : Int))).toNat = ts := by omega
  rw [slider_set_value]
  simp only [hcl]
  split
  · rw [start_game]
  · next h => omega

/-- C5: saving a game whose triangle size is in the slider range `[2, 10]`
and loading it back restores all five persisted fields exactly, whatever
the in-memory state and random stream at load time. -/
theorem save_load_roundtrip (s prior : GameState) (g : Nat → Nat)
    (h2 : 2 ≤ s.triangle_size) (h10 : s.triangle_size ≤ 10) :
    read_file prior (write_file s) g = .applied s := by
  obtain ⟨ts, bc, cc, ct, sh⟩ := s
  simp only [write_file, read_file, List.length_cons, List.length_nil, List.get?]
  rw [if_neg (by omega)]
  have := slider_set_value_size prior ts g h2 h10
  simp only [ReadResult.applied.injEq, GameState.mk.injEq]
  exact ⟨this, trivial, trivial, trivial, trivial⟩

/-- Witness for C5: a concrete size-7 game round-trips through an
unrelated prior state. -/
theorem save_load_roundtrip_witness :
    read_file initial_fields
        (write_file
          { triangle_size := 7, blank_cells := [(2, 1), (0, 0)],
            current_cell := (3, 3), current_cell_text := "1", show_hints := true })
        (fun _ => 0) =
      .applied { triangle_size := 7, blank_cells := [(2, 1), (0, 0)],
                 current_cell := (3, 3), current_cell_text := "1", show_hints := true } :=
  save_load_roundtrip
    { triangle_size := 7, blank_cells := [(2, 1), (0, 0)],
      current_cell := (3, 3), current_cell_text := "1", show_hints := true }
    initial_fields (fun _ => 0) (by decide) (by decide)

/-- Counterexample to C6 as stated: a structurally malformed blob whose
unpickling raises `EOFError`, `KeyError` or `ValueError` (empty,
truncated or garbage bytes) does not fail via the caught, logged
`DecodeError` path — the exception escapes `read_file` uncaught, because
its `except` clauses catch only `EnvironmentError` and
`pickle.UnpicklingError`. -/
theorem decode_garbage_blob_uncaught :
    read_file initial_fields .badPickle (fun _ => 0) = .uncaught initial_fields ∧
    read_file initial_fields .badPickle (fun _ => 0) ≠ .failed initial_fields := by
  decide

/-- C6 as amended: a pickled tuple of fewer than 5 fields, or a malformed
blob whose unpickling raises `pickle.UnpicklingError`, fails via the
caught error path with the prior state completely untouched; a malformed
blob raising pickle's other exceptions instead escapes `read_file`
uncaught — the prior state is still untouched (the raise precedes every
field assignment), but it is a crash, not the logged `DecodeError`. -/
theorem decode_error_paths (s : GameState) (g : Nat → Nat) (blob : SaveBlob)
    (h : blob = .unpicklable ∨ ∃ obj, blob = .record obj ∧ obj.length < 5) :
    read_file s blob g = .failed s ∧
    read_file s .badPickle g = .uncaught s := by
  refine ⟨?_, rfl⟩
  rcases h with rfl | ⟨obj, rfl, hlen⟩
  · rfl
  · rw [read_file]
    simp only [hlen, if_true]

/-- Witness for the amended C6: a 3-field tuple is rejected with the
prior state kept, and a garbage blob escapes uncaught with the prior
state equally untouched. -/
theorem decode_error_paths_witness :
    read_file initial_fields
        (.record [.vInt 5, .vCells [(1, 0)], .vCell (1, 0)]) (fun _ => 0) =
      .failed initial_fields ∧
    read_file initial_fields .badPickle (fun _ => 0) = .uncaught initial_fields :=
  decode_error_paths initial_fields (fun _ => 0)
    (.record [.vInt 5, .vCells [(1, 0)], .vCell (1, 0)])
    (Or.inr ⟨[.vInt 5, .vCells [(1, 0)], .vCell (1, 0)], rfl, by decide⟩)

/-- Each iteration of the sampling loop appends exactly one cell. -/
theorem gen_blank_loop_length (size : Nat) (g : Nat → Nat) :
    ∀ (n k : Nat) (acc : List Cell),
      (gen_blank_loop size g n k acc).length = acc.length + n := by
  intro n
  induction n with
  | zero => intro k acc; rfl
  | succ m ih =>
    intro k acc
    rw [gen_blank_loop, ih]
    simp only [List.length_append, List.length_cons, List.length_nil]
    omega

/-- Every cell produced by the sampling loop (beyond the accumulator) is
a valid cell of the triangle: `0 ≤ column ≤ row < size`. -/
theorem gen_blank_loop_mem (size : Nat) (g : Nat → Nat) (hs : 1 ≤ size) :
    ∀ (n k : Nat) (acc : List Cell) (c : Cell), c ∈ gen_blank_loop size g n k acc →
      c ∈ acc ∨ (0 ≤ c.2 ∧ c.2 ≤ c.1 ∧ c.1 < (size : Int)) := by
  intro n
  induction n with
  | zero => intro k acc c hc; exact Or.inl hc
  | succ m ih =>
    intro k acc c hc
    rw [gen_blank_loop] at hc
    rcases ih (k + 2) _ c hc with h | h
    · rcases List.mem_append.mp h with h | h
      · exact Or.inl h
      · right
        have hrow : randint 0 (size - 1) g k < size := by
          rw [randint]
          have heq : size - 1 + 1 - 0 = size := by omega
          rw [heq]
          have := Nat.mod_lt (g k) (show 0 < size by omega)
          omega
        have hcol : randint 0 (randint 0 (size - 1) g k) g (k + 1) ≤
            randint 0 (size - 1) g k := by
          simp only [randint, Nat.sub_zero, Nat.zero_add]
          have := Nat.mod_lt (g (k + 1))
            (show 0 < randint 0 (size - 1) g k + 1 by omega)
          simp only [randint, Nat.sub_zero, Nat.zero_add] at this
          omega
        simp only [List.mem_singleton] at h
        subst h
        exact ⟨Int.natCast_nonneg _, Nat.cast_le.mpr hcol, Nat.cast_lt.mpr hrow⟩
    · exact Or.inr h

/-- C9: for every triangle size ≥ 1 and every random stream,
`_generate_blank_cell_list` returns a non-empty duplicate-free list of
cells that are all valid for that size, of length at most the total cell
count `size·(size+1)/2`. -/
theorem generate_blank_cells_valid (size : Nat) (g : Nat → Nat) (hs : 1 ≤ size) :
    generate_blank_cell_list size g ≠ [] ∧
    (generate_blank_cell_list size g).Nodup ∧
    (∀ c ∈ generate_blank_cell_list size g,
        0 ≤ c.2 ∧ c.2 ≤ c.1 ∧ c.1 < (size : Int)) ∧
    (generate_blank_cell_list size g).length ≤ calculate_number_of_cells size := by
  have hN : 1 ≤ calculate_number_of_cells size := by
    rw [calculate_number_of_cells]
    have h2 : 2 ≤ size * (size + 1) := by nlinarith
    omega
  have hnb : 1 ≤ randint 1 (calculate_number_of_cells size) g 0 ∧
      randint 1 (calculate_number_of_cells size) g 0 ≤ calculate_number_of_cells size := by
    rw [randint]
    have := Nat.mod_lt (g 0) (show 0 < calculate_number_of_cells size + 1 - 1 by omega)
    omega
  simp only [generate_blank_cell_list]
  refine ⟨?_, List.nodup_dedup _, ?_, ?_⟩
  · rw [Ne, List.dedup_eq_nil]
    intro hnil
    have hlen := gen_blank_loop_length size g (randint 1 (calculate_number_of_cells size) g 0) 1 []
    rw [hnil] at hlen
    simp only [List.length_nil] at hlen
    omega
  · intro c hc
    have hmem := List.mem_dedup.mp hc
    rcases gen_blank_loop_mem size g hs _ 1 [] c hmem with h | h
    · cases h
    · exact h
  · have hsub :=
      (List.dedup_sublist
        (gen_blank_loop size g (randint 1 (calculate_number_of_cells size) g 0) 1 [])).length_le
    have hlen := gen_blank_loop_length size g (randint 1 (calculate_number_of_cells size) g 0) 1 []
    simp only [List.length_nil] at hlen
    omega

/-- Witness for C9: size 2 with the all-zero stream yields the single
valid blank cell `(0, 0)`. -/
theorem generate_blank_cells_valid_witness :
    generate_blank_cell_list 2 (fun _ => 0) ≠ [] ∧
    (generate_blank_cell_list 2 (fun _ => 0)).Nodup ∧
    (∀ c ∈ generate_blank_cell_list 2 (fun _ => 0),
        0 ≤ c.2 ∧ c.2 ≤ c.1 ∧ c.1 < ((2 : Nat) : Int)) ∧
    (generate_blank_cell_list 2 (fun _ => 0)).length ≤ calculate_number_of_cells 2 :=
  generate_blank_cells_valid 2 (fun _ => 0) (by decide)

/-- A new game always starts with empty pending text. -/
theorem textWF_start (s : GameState) (g : Nat → Nat) : TextWF (start_game s g) := by
  refine ⟨?_, ?_⟩ <;> simp [TextWF, start_game]

/-- Selecting a cell preserves pending-text well-formedness. -/
theorem textWF_update (s : GameState) (c : Cell) (h : TextWF s) :
    TextWF (update_current_cell s c) := by
  rw [update_current_cell]
  split
  · exact ⟨by simp, by simp⟩
  · exact h

/-- `'%i' % digit` for a single digit is one decimal-digit character. -/
theorem digit_char_prop :
    ∀ d : Fin 10, (toString d.val).data.length = 1 ∧
      ∀ c ∈ (toString d.val).data, c.isDigit := by decide

/-- The append step of the digit handler preserves well-formedness. -/
theorem textWF_append_digit (s : GameState) (d : Fin 10) (h : TextWF s) :
    TextWF (if s.current_cell_text.length < 2 then
        { s with current_cell_text := s.current_cell_text ++ toString d.val }
      else s) := by
  split
  · next hlt =>
    have hd := digit_char_prop d
    constructor
    · simp only [String.data_append, List.length_append, hd.1]
      have : s.current_cell_text.data.length < 2 := hlt
      omega
    · intro c hc
      simp only [String.data_append, List.mem_append] at hc
      rcases hc with hc | hc
      · exact h.2 c hc
      · exact hd.2 c hc
  · exact h

/-- Running the answer check (with its exception caught at the callback
boundary) preserves well-formedness. -/
theorem textWF_check (s1 : GameState) (h1 : TextWF s1) :
    TextWF (match check_current_cell_text s1 with
            | .ok s2 => s2
            | .error _ => s1) := by
  cases hc : check_current_cell_text s1 with
  | error e => exact h1
  | ok s2 =>
    rcases check_ok_cases s1 s2 hc with rfl | ⟨_, ht⟩
    · exact h1
    · exact ⟨by rw [ht]; decide, by rw [ht]; intro c hc2; cases hc2⟩

/-- A digit key press preserves pending-text well-formedness. -/
theorem textWF_digit (s : GameState) (d : Fin 10) (h : TextWF s) :
    TextWF (press_digit s d) := by
  simp only [press_digit]
  exact textWF_check _ (textWF_append_digit s d h)

/-- Backspace preserves pending-text well-formedness. -/
theorem textWF_back (s : GameState) (h : TextWF s) : TextWF (press_backspace s) := by
  constructor
  · have := (List.dropLast_sublist s.current_cell_text.data).length_le
    exact le_trans this h.1
  · intro c hc
    exact h.2 c ((List.dropLast_sublist s.current_cell_text.data).subset hc)

/-- Every transition preserves pending-text well-formedness. -/
theorem step_textWF {s s' : GameState} (h : TextWF s) (hs : Step s s') : TextWF s' := by
  cases hs with
  | start g => exact textWF_start s g
  | select c => exact textWF_update s c h
  | digit d => exact textWF_digit s d h
  | back => exact textWF_back s h

/-- Pending-text well-formedness holds in every reachable state. -/
theorem reachable_textWF (s : GameState) (h : Reachable s) : TextWF s := by
  induction h with
  | init g => exact textWF_start _ g
  | step _ hstep ih => exact step_textWF ih hstep

/-- A digit press either keeps the selection or (on an accepted answer)
resets it to the sentinel with empty pending text. -/
theorem press_digit_cases (s : GameState) (d : Fin 10) :
    (press_digit s d).current_cell = s.current_cell ∨
    ((press_digit s d).current_cell = noCell ∧ (press_digit s d).current_cell_text = "") := by
  have hcell : ((if s.current_cell_text.length < 2 then
      { s with current_cell_text := s.current_cell_text ++ toString d.val }
    else s)).current_cell = s.current_cell := by
    split <;> rfl
  simp only [press_digit]
  cases hc : check_current_cell_text (if s.current_cell_text.length < 2 then
      { s with current_cell_text := s.current_cell_text ++ toString d.val }
    else s) with
  | error e => exact Or.inl hcell
  | ok s2 =>
    rcases check_ok_cases _ s2 hc with rfl | ⟨hcc, ht⟩
    · exact Or.inl hcell
    · exact Or.inr ⟨hcc, ht⟩

/-- Whenever a transition changes the selection (including acceptance of
a correct answer, which resets it to the sentinel), the pending text is
reset to empty. -/
theorem step_cell_change {s s' : GameState} (hs : Step s s')
    (hne : s'.current_cell ≠ s.current_cell) : s'.current_cell_text = "" := by
  cases hs with
  | start g => rfl
  | select c =>
    by_cases hcond : c ≠ s.current_cell
    · rw [update_current_cell, if_pos hcond]
    · rw [update_current_cell, if_neg hcond] at hne
      exact absurd rfl hne
  | digit d =>
    rcases press_digit_cases s d with h | ⟨_, ht⟩
    · exact absurd h hne
    · exact ht
  | back => exact absurd rfl hne

/-- C10: in every state reachable from a new game by `start_game`, cell
selection, digit presses and backspace, the pending text is a string of
at most 2 decimal-digit characters; and every transition that changes
the selection — including acceptance of a correct answer, which resets
the selection to the sentinel — resets the pending text to empty. -/
theorem pendingText_invariant :
    (∀ s : GameState, Reachable s → TextWF s) ∧
    (∀ s s' : GameState, Step s s' → s'.current_cell ≠ s.current_cell →
      s'.current_cell_text = "") :=
  ⟨reachable_textWF, fun _ _ hs hne => step_cell_change hs hne⟩

/-- Witness for C10: the fresh size-5 game of the all-zero stream is
reachable and well-formed, and selecting its cell `(0, 0)` (a selection
change) leaves the pending text empty. -/
theorem pendingText_invariant_witness :
    TextWF (start_game initial_fields (fun _ => 0)) ∧
    (update_current_cell (start_game initial_fields (fun _ => 0)) (0, 0)).current_cell_text
      = "" :=
  ⟨pendingText_invariant.1 _ (Reachable.init (fun _ => 0)),
   pendingText_invariant.2 _ _ (Step.select _ (0, 0)) (by decide)⟩
